import Mathlib

/-!
Verification of the thinkwrapper newsletter backend against its
natural-language specification.

The Lean definitions below are shallow embeddings of the Python source:

* `app/payment_service.py` — `PaddlePaymentService.verify_webhook_signature`,
  `process_webhook_event` and its per-event handlers;
* `app/services.py` — `verify_paddle_webhook`, `search_brave`,
  `_get_mock_search_results`, `_parse_brave_results`;
* `app/routes.py` — the `/api/payment/webhook` and `/api/generate` routes;
* `app/auth.py` — the `/auth/paddle/webhook` route;
* `app/api_utils.py` — `InputValidator.validate_topic` and
  `_contains_injection_patterns`;
* `app/tasks.py` — `generate_newsletter_async` and `send_email_async`
  retry behaviour;
* `app/newsletter_synthesis.py` — `NewsletterRenderer.render_html` and
  `_markdown_to_html`.

The Python standard-library primitives the source calls (`hashlib.sha256`,
`hmac.new(...).hexdigest()`, `hmac.compare_digest`, UTF-8 encoding) are
embedded as executable Lean functions implementing FIPS 180-4 SHA-256 and
RFC 2104 HMAC; `hmac.compare_digest` on two `str` values is extensionally
string equality (its constant-time execution is a timing property with no
counterpart in a functional embedding).

Machine integers are modelled as `Nat` with explicit reduction `% 2^32`
where 32-bit overflow matters.  JSON values are modelled by the inductive
`Json`; Python truthiness of a JSON value is `Json.truthy`.
-/

/-! ## Generic list/string helpers (Python `str`/`re` primitives) -/

/-- `listStartsWith pat l` — does `l` start with `pat`?
(Python `str.startswith`.) -/
def listStartsWith : List Char → List Char → Bool
  | [], _ => true
  | _ :: _, [] => false
  | p :: ps, c :: cs => p = c && listStartsWith ps cs

/-- `containsSeq pat l` — does `pat` occur as a contiguous subsequence of
`l`?  (Python `in` / `re.search` of a literal pattern.) -/
def containsSeq (pat : List Char) : List Char → Bool
  | [] => listStartsWith pat []
  | c :: cs => listStartsWith pat (c :: cs) || containsSeq pat cs

/-- Substring test on strings (Python `needle in haystack`). -/
def strContains (haystack needle : String) : Bool :=
  containsSeq needle.data haystack.data

/-! ## SHA-256 (FIPS 180-4), the model of Python `hashlib.sha256` -/

/-- Reduce to a 32-bit word. -/
def w32 (n : Nat) : Nat := n % 4294967296

/-- 32-bit modular addition. -/
def add32 (a b : Nat) : Nat := (a + b) % 4294967296

/-- 32-bit right rotation (input assumed `< 2^32`). -/
def rotr32 (r n : Nat) : Nat := w32 ((n >>> r) ||| (n <<< (32 - r)))

/-- SHA-256 `Ch` function. -/
def shaCh (x y z : Nat) : Nat := (x &&& y) ^^^ ((x ^^^ 4294967295) &&& z)

/-- SHA-256 `Maj` function. -/
def shaMaj (x y z : Nat) : Nat := (x &&& y) ^^^ (x &&& z) ^^^ (y &&& z)

/-- SHA-256 Σ₀. -/
def bigSigma0 (x : Nat) : Nat := rotr32 2 x ^^^ rotr32 13 x ^^^ rotr32 22 x

/-- SHA-256 Σ₁. -/
def bigSigma1 (x : Nat) : Nat := rotr32 6 x ^^^ rotr32 11 x ^^^ rotr32 25 x

/-- SHA-256 σ₀. -/
def smallSigma0 (x : Nat) : Nat := rotr32 7 x ^^^ rotr32 18 x ^^^ (x >>> 3)

/-- SHA-256 σ₁. -/
def smallSigma1 (x : Nat) : Nat := rotr32 17 x ^^^ rotr32 19 x ^^^ (x >>> 10)

/-- The 64 SHA-256 round constants of FIPS 180-4 (written in decimal). -/
def sha256K : List Nat :=
  [1116352408, 1899447441, 3049323471, 3921009573, 961987163,
   1508970993, 2453635748, 2870763221, 3624381080, 310598401,
   607225278, 1426881987, 1925078388, 2162078206, 2614888103,
   3248222580, 3835390401, 4022224774, 264347078, 604807628,
   770255983, 1249150122, 1555081692, 1996064986, 2554220882,
   2821834349, 2952996808, 3210313671, 3336571891, 3584528711,
   113926993, 338241895, 666307205, 773529912, 1294757372,
   1396182291, 1695183700, 1986661051, 2177026350, 2456956037,
   2730485921, 2820302411, 3259730800, 3345764771, 3516065817,
   3600352804, 4094571909, 275423344, 430227734, 506948616,
   659060556, 883997877, 958139571, 1322822218, 1537002063,
   1747873779, 1955562222, 2024104815, 2227730452, 2361852424,
   2428436474, 2756734187, 3204031479, 3329325298]

/-- The SHA-256 initial hash value of FIPS 180-4 (eight 32-bit words,
written in decimal). -/
def sha256InitH : List Nat :=
  [1779033703, 3144134277, 1013904242, 2773480762,
   1359893119, 2600822924, 528734635, 1541459225]

/-- Working state of one SHA-256 compression. -/
structure Sha256State where
  a : Nat
  b : Nat
  c : Nat
  d : Nat
  e : Nat
  f : Nat
  g : Nat
  h : Nat

/-- One SHA-256 round. -/
def sha256Round (s : Sha256State) (k w : Nat) : Sha256State :=
  let t1 := add32 s.h (add32 (bigSigma1 s.e) (add32 (shaCh s.e s.f s.g) (add32 k w)))
  let t2 := add32 (bigSigma0 s.a) (shaMaj s.a s.b s.c)
  { a := add32 t1 t2, b := s.a, c := s.b, d := s.c,
    e := add32 s.d t1, f := s.e, g := s.f, h := s.g }

/-- Big-endian 32-bit word from four message bytes at word index `i`. -/
def wordAt (block : List Nat) (i : Nat) : Nat :=
  block.getD (4 * i) 0 * 16777216 + block.getD (4 * i + 1) 0 * 65536 +
    block.getD (4 * i + 2) 0 * 256 + block.getD (4 * i + 3) 0

/-- The 64-word SHA-256 message schedule of one 64-byte block. -/
def sha256Schedule (block : List Nat) : List Nat :=
  let first16 := (List.range 16).map (wordAt block)
  (List.range 48).foldl
    (fun w _ =>
      let n := w.length
      w ++ [add32 (add32 (smallSigma1 (w.getD (n - 2) 0)) (w.getD (n - 7) 0))
              (add32 (smallSigma0 (w.getD (n - 15) 0)) (w.getD (n - 16) 0))])
    first16

/-- Compress one 64-byte block into the running 8-word hash value. -/
def sha256Compress (hs : List Nat) (block : List Nat) : List Nat :=
  let w := sha256Schedule block
  let s0 : Sha256State :=
    { a := hs.getD 0 0, b := hs.getD 1 0, c := hs.getD 2 0, d := hs.getD 3 0,
      e := hs.getD 4 0, f := hs.getD 5 0, g := hs.getD 6 0, h := hs.getD 7 0 }
  let sf := (sha256K.zip w).foldl (fun s kw => sha256Round s kw.1 kw.2) s0
  [add32 (hs.getD 0 0) sf.a, add32 (hs.getD 1 0) sf.b,
   add32 (hs.getD 2 0) sf.c, add32 (hs.getD 3 0) sf.d,
   add32 (hs.getD 4 0) sf.e, add32 (hs.getD 5 0) sf.f,
   add32 (hs.getD 6 0) sf.g, add32 (hs.getD 7 0) sf.h]

/-- SHA-256 padding: append `0x80`, zero bytes to 56 mod 64, then the
bit length as a big-endian 64-bit integer. -/
def sha256Pad (msg : List Nat) : List Nat :=
  let len := msg.length
  let zeros := (64 + 55 - len % 64) % 64
  let bitLen := len * 8
  msg ++ 128 :: List.replicate zeros 0 ++
    [(bitLen >>> 56) % 256, (bitLen >>> 48) % 256, (bitLen >>> 40) % 256,
     (bitLen >>> 32) % 256, (bitLen >>> 24) % 256, (bitLen >>> 16) % 256,
     (bitLen >>> 8) % 256, bitLen % 256]

/-- Split a byte list into consecutive 64-byte blocks.  `fuel` bounds the
recursion; any `fuel ≥ l.length` yields the exact decomposition. -/
def chunks64 (fuel : Nat) (l : List Nat) : List (List Nat) :=
  match fuel, l with
  | _, [] => []
  | 0, l => [l]
  | fuel + 1, l => l.take 64 :: chunks64 fuel (l.drop 64)

/-- Big-endian serialization of one 32-bit word into four bytes. -/
def word4 (w : Nat) : List Nat :=
  [(w >>> 24) % 256, (w >>> 16) % 256, (w >>> 8) % 256, w % 256]

/-- SHA-256 of a byte list, as a list of 32 bytes. -/
def sha256 (msg : List Nat) : List Nat :=
  let padded := sha256Pad msg
  let hs := (chunks64 padded.length padded).foldl sha256Compress sha256InitH
  word4 (hs.getD 0 0) ++ word4 (hs.getD 1 0) ++ word4 (hs.getD 2 0) ++
    word4 (hs.getD 3 0) ++ word4 (hs.getD 4 0) ++ word4 (hs.getD 5 0) ++
    word4 (hs.getD 6 0) ++ word4 (hs.getD 7 0)

/-! ## HMAC-SHA256 (RFC 2104), the model of Python `hmac.new(..., sha256)` -/

/-- HMAC-SHA256 of `msg` keyed by `key`, both byte lists. -/
def hmacSha256 (key msg : List Nat) : List Nat :=
  let key1 := if 64 < key.length then sha256 key else key
  let keyPad := key1 ++ List.replicate (64 - key1.length) 0
  let ipad := keyPad.map (fun b => b ^^^ 0x36)
  let opad := keyPad.map (fun b => b ^^^ 0x5c)
  sha256 (opad ++ sha256 (ipad ++ msg))

/-- UTF-8 encoding of one character (Python `str.encode('utf-8')`). -/
def utf8EncodeChar (c : Char) : List Nat :=
  let n := c.toNat
  if n < 128 then [n]
  else if n < 2048 then [192 ||| (n >>> 6), 128 ||| (n &&& 63)]
  else if n < 65536 then
    [224 ||| (n >>> 12), 128 ||| ((n >>> 6) &&& 63), 128 ||| (n &&& 63)]
  else
    [240 ||| (n >>> 18), 128 ||| ((n >>> 12) &&& 63),
     128 ||| ((n >>> 6) &&& 63), 128 ||| (n &&& 63)]

/-- UTF-8 encoding of a string as a byte list. -/
def utf8Encode (s : String) : List Nat :=
  s.data.foldr (fun c acc => utf8EncodeChar c ++ acc) []

/-- Lower-case hex character of the nibble `n % 16`. -/
def hexChar (n : Nat) : Char :=
  "0123456789abcdef".data.getD (n % 16) '0'

/-- Two lower-case hex characters of a byte (bytes are `< 256`, so the
high nibble `b / 16` is already `< 16`). -/
def byteToHex (b : Nat) : List Char :=
  [hexChar (b / 16), hexChar (b % 16)]

/-- Lower-case hex string of a byte list (Python `.hexdigest()`). -/
def hexOfBytes (bs : List Nat) : List Char :=
  bs.foldr (fun b acc => byteToHex b ++ acc) []

/-- `hmac.new(key.encode('utf-8'), msg.encode('utf-8'), hashlib.sha256).hexdigest()`. -/
def hmacSha256Hex (key msg : String) : String :=
  ⟨hexOfBytes (hmacSha256 (utf8Encode key) (utf8Encode msg))⟩

/-! ## `PaddlePaymentService.verify_webhook_signature` (payment_service.py 102-138)

The service's `webhook_secret` comes from the `PADDLE_WEBHOOK_SECRET`
environment variable: `none` models an unset variable, `some ""` an empty
one; Python's `if not self.webhook_secret` rejects both.  The body computes
`hmac.new(secret.utf8, payload.utf8, sha256).hexdigest()` and compares it
with the full `signature` argument via `hmac.compare_digest` (extensionally
string equality).  The `try/except` around it cannot fire for `str`
arguments, so the embedding has no error branch. -/
def verifyWebhookSignature (webhookSecret : Option String)
    (payload signature : String) : Bool :=
  match webhookSecret with
  | none => false
  | some secret =>
    if secret = "" then false
    else hmacSha256Hex secret payload == signature

/-! ## JSON values and Python truthiness -/

/-- A JSON value (the payloads Flask's `request.json` produces). -/
inductive Json where
  | null : Json
  | bool (b : Bool) : Json
  | str (s : String) : Json
  | num (n : Int) : Json
  | arr (elems : List Json) : Json
  | obj (fields : List (String × Json)) : Json

/-- Boolean structural equality of JSON values (Python `==` on parsed
JSON data). -/
def Json.beq : Json → Json → Bool
  | .null, .null => true
  | .bool a, .bool b => a == b
  | .str a, .str b => a == b
  | .num a, .num b => a == b
  | .arr [], .arr [] => true
  | .arr (a :: as), .arr (b :: bs) => Json.beq a b && Json.beq (.arr as) (.arr bs)
  | .obj [], .obj [] => true
  | .obj ((k1, v1) :: fs1), .obj ((k2, v2) :: fs2) =>
    k1 == k2 && Json.beq v1 v2 && Json.beq (.obj fs1) (.obj fs2)
  | _, _ => false

/-- Is this JSON value the string `s`?  (Python `value == 's'`: equality
of a JSON value with a string literal is `False` unless the value is that
string.) -/
def Json.isStr : Json → String → Bool
  | .str t, s => t = s
  | _, _ => false

/-- `d.get(k)` on a Python dict parsed from JSON: first binding of `k`,
`none` when the key is absent or the value is not an object. -/
def Json.lookup : Json → String → Option Json
  | .obj fields, k =>
    match fields.find? (fun kv => kv.1 = k) with
    | some kv => some kv.2
    | none => none
  | _, _ => none

/-- Python truthiness of a JSON value (`bool(x)`). -/
def Json.truthy : Json → Bool
  | .null => false
  | .bool b => b
  | .str s => s ≠ ""
  | .num n => n ≠ 0
  | .arr elems => !elems.isEmpty
  | .obj fields => !fields.isEmpty

/-- Python truthiness of `d.get(k)`-style optional values (`None` is falsy). -/
def truthyOpt : Option Json → Bool
  | none => false
  | some j => j.truthy

/-! ## `PaddlePaymentService.process_webhook_event` (payment_service.py 140-274)

Each `_handle_*` helper only reads fields out of the event payload with
`.get` and returns a result dict (none of them touches the database).
Python `.get` exists only on a dict: on a dict, an absent key gives
`None` (JSON `null` in the result dict — `jsonOfGet`); on any non-dict
`data` (`None`, a list, a string, a number, a bool) the first `.get` call
raises `AttributeError`, which the `try/except` of
`process_webhook_event` (payment_service.py 172-174) converts to
`(status: "error", message: str(e))`.  `runHandler` routes `data` to the
handler or to that error dict accordingly — the handlers themselves are
only ever applied to dicts. -/

/-- `data.get(k)` on a dict, as a JSON value (`None` becomes JSON
`null`).  Only dict values reach the handlers (see `runHandler`). -/
def jsonOfGet (data : Json) (k : String) : Json :=
  (data.lookup k).getD Json.null

/-- The Python type name of a JSON value, as it appears in the
`AttributeError` text (`Json.num` covers the JSON numbers the claims
exercise as Python `int`). -/
def pyTypeName : Json → String
  | .null => "NoneType"
  | .bool _ => "bool"
  | .str _ => "str"
  | .num _ => "int"
  | .arr _ => "list"
  | .obj _ => "dict"

/-- The `try/except` of `process_webhook_event` around one handler call:
on a dict the handler runs (its `.get` calls cannot raise); on any other
`data` value the first `.get` raises `AttributeError`, and the `except`
returns `(status: "error", message: str(e))` with the standard
`AttributeError` text. -/
def runHandler (handler : Json → Json) (data : Json) : Json :=
  match data with
  | Json.obj fields => handler (Json.obj fields)
  | other =>
    Json.obj [("status", Json.str "error"),
      ("message", Json.str ("'" ++ pyTypeName other ++
        "' object has no attribute 'get'"))]

/-- `_handle_transaction_completed`. -/
def handleTransactionCompleted (data : Json) : Json :=
  Json.obj [("status", Json.str "success"),
            ("event_type", Json.str "transaction.completed"),
            ("transaction_id", jsonOfGet data "id"),
            ("customer_id", jsonOfGet data "customer_id"),
            ("amount", jsonOfGet data "amount"),
            ("currency", jsonOfGet data "currency_code")]

/-- `_handle_transaction_updated`. -/
def handleTransactionUpdated (data : Json) : Json :=
  Json.obj [("status", Json.str "success"),
            ("event_type", Json.str "transaction.updated"),
            ("transaction_id", jsonOfGet data "id"),
            ("transaction_status", jsonOfGet data "status")]

/-- `_handle_subscription_created`. -/
def handleSubscriptionCreated (data : Json) : Json :=
  Json.obj [("status", Json.str "success"),
            ("event_type", Json.str "subscription.created"),
            ("subscription_id", jsonOfGet data "id"),
            ("customer_id", jsonOfGet data "customer_id"),
            ("subscription_status", jsonOfGet data "status")]

/-- `_handle_subscription_updated`. -/
def handleSubscriptionUpdated (data : Json) : Json :=
  Json.obj [("status", Json.str "success"),
            ("event_type", Json.str "subscription.updated"),
            ("subscription_id", jsonOfGet data "id"),
            ("subscription_status", jsonOfGet data "status")]

/-- `_handle_subscription_cancelled`.  Note: it only logs and returns this
dict; it performs no database update. -/
def handleSubscriptionCancelled (data : Json) : Json :=
  Json.obj [("status", Json.str "success"),
            ("event_type", Json.str "subscription.cancelled"),
            ("subscription_id", jsonOfGet data "id"),
            ("cancelled_at", jsonOfGet data "cancelled_at")]

/-- `_handle_subscription_past_due`. -/
def handleSubscriptionPastDue (data : Json) : Json :=
  Json.obj [("status", Json.str "success"),
            ("event_type", Json.str "subscription.past_due"),
            ("subscription_id", jsonOfGet data "id")]

/-- `process_webhook_event(event_type, event_data)`.  The Python function
compares `event_type` (whatever JSON value the route extracted) against
six string literals and calls the matching handler inside its
`try/except` (`runHandler`); for any other event type no handler runs and
the unhandled dict is returned (that branch performs no `.get`, so it
cannot raise). -/
def processWebhookEvent (eventType : Json) (eventData : Json) : Json :=
  if eventType.isStr "transaction.completed" then
    runHandler handleTransactionCompleted eventData
  else if eventType.isStr "transaction.updated" then
    runHandler handleTransactionUpdated eventData
  else if eventType.isStr "subscription.created" then
    runHandler handleSubscriptionCreated eventData
  else if eventType.isStr "subscription.updated" then
    runHandler handleSubscriptionUpdated eventData
  else if eventType.isStr "subscription.cancelled" then
    runHandler handleSubscriptionCancelled eventData
  else if eventType.isStr "subscription.past_due" then
    runHandler handleSubscriptionPastDue eventData
  else
    Json.obj [("status", Json.str "unhandled"), ("event_type", eventType)]

/-- The six event types `process_webhook_event` dispatches to a handler. -/
def handledEventTypes : List String :=
  ["transaction.completed", "transaction.updated", "subscription.created",
   "subscription.updated", "subscription.cancelled", "subscription.past_due"]

/-! ## `POST /api/payment/webhook` (routes.py 382-429)

Inputs: the configured `PADDLE_WEBHOOK_SECRET` (through the service
singleton), the raw request body as text, the `Paddle-Signature` header
(`none` when absent — `request.headers.get` defaults it to `''`), and the
request body parsed as JSON (`request.json`).  The route returns a status
code and a JSON body. -/
def paddleWebhookRoute (secret : Option String) (payload : String)
    (sigHeader : Option String) (body : Json) : Nat × Json :=
  let signature := sigHeader.getD ""
  if signature = "" then
    (400, Json.obj [("error", Json.str "Missing signature")])
  else if !verifyWebhookSignature secret payload signature then
    (401, Json.obj [("error", Json.str "Invalid signature")])
  else
    let eventType := body.lookup "event_type"
    let eventData := (body.lookup "data").getD (Json.obj [])
    if !truthyOpt eventType then
      (400, Json.obj [("error", Json.str "Missing event_type")])
    else
      let _ := processWebhookEvent (eventType.getD Json.null) eventData
      (200, Json.obj [("status", Json.str "received"),
                      ("event_type", eventType.getD Json.null)])

/-! ## `services.verify_paddle_webhook` (services.py 122-136)

The module-level verifier is an explicit placeholder: its body is
`return True`, ignoring both arguments.  `data` is the raw request body,
`signature` the `Paddle-Signature` header (possibly absent). -/
def verifyPaddleWebhook (data : String) (signature : Option String) : Bool :=
  true

/-! ## The `User` table (models.py 8-49)

Fields the webhook flows read or write: `email` (unique string column),
`subscription_id` (nullable string column that the auth route assigns the
incoming JSON value to — kept as `Option Json` so non-string payload ids
are representable), `is_active` (boolean, default true).  `id` is the
primary key. -/
structure User where
  id : Nat
  email : String
  subscriptionId : Option Json
  isActive : Bool

/-- `Query.filter_by(...).first()` followed by mutating the found row and
committing: rewrite the first list element satisfying `p` by `f`, leaving
everything else unchanged. -/
def updateFirst (p : User → Bool) (f : User → User) : List User → List User
  | [] => []
  | u :: us => if p u then f u :: us else u :: updateFirst p f us

/-- `filter_by(subscription_id=v)`: a row matches when its (possibly NULL)
`subscription_id` equals the value `v`. -/
def subIdMatches (v : Json) (u : User) : Bool :=
  match u.subscriptionId with
  | some j => Json.beq j v
  | none => false

/-- `filter_by(email=v)`: a row matches when its email column equals the
value `v` (only a string value can equal a string column). -/
def emailMatches (v : Json) (u : User) : Bool :=
  Json.beq (Json.str u.email) v

/-! ## `POST /auth/paddle/webhook` (auth.py 124-190)

State-passing embedding: the route maps the user table and the request to
the new user table, the HTTP status and the response body.  Corner not
modelled: a `customer` field that is present but not a JSON object makes
Python's `.get` chain raise (Flask 500); the embedding treats it as a
missing email (400).  No claim exercises that corner. -/
def authPaddleWebhookRoute (db : List User) (rawBody : String)
    (sigHeader : Option String) (body : Json) : List User × Nat × Json :=
  if !verifyPaddleWebhook rawBody sigHeader then
    (db, 403, Json.obj [("error", Json.str "Invalid Paddle signature")])
  else
    let eventType := body.lookup "event_type"
    let data := body.lookup "data"
    if !truthyOpt eventType || !truthyOpt data then
      (db, 400,
        Json.obj [("error", Json.str "Missing event_type or data in webhook payload")])
    else
      let et := eventType.getD Json.null
      let d := data.getD Json.null
      if et.isStr "subscription.created" || et.isStr "subscription.updated" then
        let userEmail := ((d.lookup "customer").getD (Json.obj [])).lookup "email"
        let subId := d.lookup "id"
        let status := d.lookup "status"
        if !truthyOpt userEmail || !truthyOpt subId || !truthyOpt status then
          (db, 400,
            Json.obj [("error",
              Json.str "Webhook payload for subscription event missing fields")])
        else
          let db' := updateFirst (emailMatches (userEmail.getD Json.null))
            (fun u => { u with subscriptionId := some (subId.getD Json.null),
                               isActive := (status.getD Json.null).isStr "active" }) db
          (db', 200, Json.obj [("status", Json.str "webhook processed")])
      else if et.isStr "subscription.canceled" then
        let subId := d.lookup "id"
        if !truthyOpt subId then
          (db, 400,
            Json.obj [("error",
              Json.str "Webhook payload for subscription.canceled missing id")])
        else
          let db' := updateFirst (subIdMatches (subId.getD Json.null))
            (fun u => { u with isActive := false }) db
          (db', 200, Json.obj [("status", Json.str "webhook processed")])
      else
        (db, 200, Json.obj [("status", Json.str "webhook processed")])

/-! ## `POST /api/generate` (routes.py 14-27) -/

/-- The generate route: `data.get('topic', '')`, reject falsy topics with
400, otherwise answer 202 processing.  (It performs no length or
injection-pattern validation and never invokes
`InputValidator.validate_topic`.) -/
def generateNewsletterRoute (body : Json) : Nat × Json :=
  let topic := (body.lookup "topic").getD (Json.str "")
  if !topic.truthy then
    (400, Json.obj [("error", Json.str "No topic provided")])
  else
    (202, Json.obj [("status", Json.str "processing"), ("topic", topic)])

/-! ## `InputValidator` (api_utils.py 88-213) -/

/-- The whitespace class of Python `str.strip()` / regex `\s`, restricted
to ASCII (all inputs in this development are ASCII). -/
def pySpace (c : Char) : Bool :=
  c = ' ' || c = '\t' || c = '\n' || c = '\r' || c = '\x0b' || c = '\x0c'

/-- Python `str.strip()`. -/
def stripChars (l : List Char) : List Char :=
  ((l.dropWhile pySpace).reverse.dropWhile pySpace).reverse

/-- Python `str.strip()` on strings. -/
def pyStrip (s : String) : String := ⟨stripChars s.data⟩

/-- Regex `\w` (ASCII): letters, digits, underscore. -/
def wordChar (c : Char) : Bool := c.isAlphanum || c = '_'

/-- Does the regex `on\w+\s*=` match at the head of `l`?  (`.` never
enters: the pattern is `on`, one or more word characters, any whitespace,
then `=`; greedy matching without backtracking is equivalent here because
word characters, whitespace and `=` are disjoint.) -/
def matchOnAt (l : List Char) : Bool :=
  match l with
  | 'o' :: 'n' :: rest =>
    !(rest.takeWhile wordChar).isEmpty &&
      ((rest.dropWhile wordChar).dropWhile pySpace).headD ' ' = '='
  | _ => false

/-- `re.search(r'on\w+\s*=', l)`: does the pattern match anywhere? -/
def matchOnAnywhere : List Char → Bool
  | [] => false
  | c :: cs => matchOnAt (c :: cs) || matchOnAnywhere cs

/-- `InputValidator._contains_injection_patterns`: lower-case the text and
look for any of the six patterns (five literals and `on\w+\s*=`). -/
def containsInjectionPatterns (text : String) : Bool :=
  let lower := text.data.map Char.toLower
  containsSeq "<script".data lower || containsSeq "javascript:".data lower ||
    matchOnAnywhere lower || containsSeq "<iframe".data lower ||
    containsSeq "<object".data lower || containsSeq "<embed".data lower

/-- `InputValidator.validate_topic` (MIN_TOPIC_LENGTH = 3,
MAX_TOPIC_LENGTH = 500 from constants.py).  Returns
`(is_valid, error_message)`. -/
def validateTopic (topic : Option String) : Bool × Option String :=
  match topic with
  | none => (false, some "Topic is required")
  | some t =>
    if t = "" then (false, some "Topic is required")
    else
      let t := pyStrip t
      if t.length < 3 then
        (false, some "Topic must be at least 3 characters")
      else if 500 < t.length then
        (false, some "Topic must be at most 500 characters")
      else if containsInjectionPatterns t then
        (false, some "Topic contains invalid characters")
      else (true, none)

/-! ## `services.search_brave` (services.py 139-321)

The HTTP call to the Brave API is an environment input, modelled by
`HttpOutcome`: a response with a status code and parsed JSON body, a
timeout (`requests.exceptions.Timeout`), or any other exception.  The
`BRAVE_SEARCH_API_KEY` environment variable is `none` when unset; Python's
`if not brave_api_key` also rejects an empty value. -/

/-- Outcome of the `requests.get` call inside `search_brave`. -/
inductive HttpOutcome where
  | resp (code : Nat) (data : Json)
  | timeout
  | exn (msg : String)

/-- One search result dict (`title`/`url`/`description`). -/
structure SearchResult where
  title : Json
  url : Json
  description : Json

/-- The result dict `search_brave` returns. -/
structure SearchResponse where
  success : Bool
  source : String
  query : String
  results : List SearchResult
  totalResults : Nat
  error : Option String

/-- `_get_mock_search_results(query, count)`: `min(count, MAX_MOCK_RESULTS)`
placeholder results (MAX_MOCK_RESULTS = 5 from constants.py). -/
def mockSearchResults (query : String) (count : Nat) : SearchResponse :=
  let actualCount := min count 5
  { success := true, source := "mock", query := query,
    results := (List.range actualCount).map (fun i =>
      { title := Json.str ("Mock Result " ++ toString (i + 1) ++ " for \"" ++ query ++ "\""),
        url := Json.str ("https://example.com/result/" ++ toString (i + 1)),
        description := Json.str ("This is a mock search result for the query \"" ++
          query ++ "\". In production, this would be replaced with real results " ++
          "from Brave Search API.") }),
    totalResults := actualCount, error := none }

/-- `_parse_brave_results(data)`: items of `data["web"]["results"]` with
`title`/`url`/`description` defaulted to `''`. -/
def parseBraveResults (data : Json) : List SearchResult :=
  let webResults :=
    match ((data.lookup "web").getD (Json.obj [])).lookup "results" with
    | some (Json.arr items) => items
    | _ => []
  webResults.map (fun item =>
    { title := (item.lookup "title").getD (Json.str ""),
      url := (item.lookup "url").getD (Json.str ""),
      description := (item.lookup "description").getD (Json.str "") })

/-- An error-shaped `search_brave` result (`success=False`, empty results). -/
def braveFailure (query : String) (errorMsg : String) : SearchResponse :=
  { success := false, source := "brave", query := query, results := [],
    totalResults := 0, error := some errorMsg }

/-- `search_brave(query, count, fallback_to_mock)` as a function of the
configured API key and the outcome of the HTTP request (which is only
performed when a key is configured). -/
def searchBrave (apiKey : Option String) (query : String) (count : Nat)
    (fallbackToMock : Bool) (outcome : HttpOutcome) : SearchResponse :=
  let keyMissing := match apiKey with | none => true | some k => k = ""
  if keyMissing then
    if fallbackToMock then mockSearchResults query count
    else braveFailure query "Brave Search API key not configured"
  else
    match outcome with
    | .resp code data =>
      if code = 200 then
        let parsed := parseBraveResults data
        { success := true, source := "brave", query := query, results := parsed,
          totalResults := parsed.length, error := none }
      else
        if fallbackToMock then mockSearchResults query count
        else braveFailure query ("Brave API returned status code " ++ toString code)
    | .timeout =>
      if fallbackToMock then mockSearchResults query count
      else braveFailure query "Brave Search API request timed out"
    | .exn msg =>
      if fallbackToMock then mockSearchResults query count
      else braveFailure query ("Brave Search error: " ++ msg)

/-! ## Celery task wrappers (tasks.py 31-108)

Framework boundary, modelled from Celery's documented semantics:
`self.request.retries` counts the retries performed so far (0 on the first
execution), and `Task.retry(...)` re-raises as `Retry` (the task is
re-queued with the given countdown) when `request.retries + 1 ≤
max_retries`, and raises `MaxRetriesExceededError` otherwise.  One task
execution therefore either returns a value, asks to be re-queued after
`countdown` seconds, or — in these two tasks — catches
`MaxRetriesExceededError` and returns a structured error dict. -/

/-- Result of one execution of a task body. -/
inductive TaskStep where
  | success (r : Json)
  | retryAt (countdown : Nat)
  | errorDict (d : Json)

/-- Does `Task.retry` raise `MaxRetriesExceededError` at this retry count? -/
def celeryRetryExceeded (maxRetries retries : Nat) : Bool :=
  maxRetries < retries + 1

/-- One execution of `generate_newsletter_async` (max_retries=3,
countdown `60 * 2 ** retries`).  `svcResult` is the outcome of
`services.generate_newsletter_content`: `none` covers both an exception
and a `None` return (the body raises on `None`). -/
def generateNewsletterStep (retries : Nat) (svcResult : Option Json) : TaskStep :=
  match svcResult with
  | some r => .success r
  | none =>
    if celeryRetryExceeded 3 retries then
      .errorDict (Json.obj
        [("error", Json.str "Failed to generate newsletter after multiple retries")])
    else .retryAt (60 * 2 ^ retries)

/-- One execution of `send_email_async` (max_retries=5, countdown
`30 * 2 ** retries`).  `svcOk` is the outcome of `services.send_email`
(`false` covers both a `False` return and an exception); `sentAt` is the
wall-clock timestamp taken on success. -/
def sendEmailStep (toEmail subject sentAt : String) (retries : Nat)
    (svcOk : Bool) : TaskStep :=
  if svcOk then
    .success (Json.obj [("success", Json.bool true),
                        ("to_email", Json.str toEmail),
                        ("subject", Json.str subject),
                        ("sent_at", Json.str sentAt)])
  else
    if celeryRetryExceeded 5 retries then
      .errorDict (Json.obj [("success", Json.bool false),
        ("error", Json.str "Failed to send email after multiple retries"),
        ("to_email", Json.str toEmail)])
    else .retryAt (30 * 2 ^ retries)

/-- Final task state visible to status polling. -/
inductive TaskFinal where
  | completed (r : Json)
  | failed (d : Json)

/-- Drive a task to completion: execute the body at the current retry
count, re-queue on `retryAt`, stop on a returned value.  `invocations`
bounds the number of executions (`none` = still pending after the bound). -/
def runCeleryTask (step : Nat → TaskStep) : Nat → Nat → Option TaskFinal
  | 0, _ => none
  | invocations + 1, retries =>
    match step retries with
    | .success r => some (.completed r)
    | .errorDict d => some (.failed d)
    | .retryAt _ => runCeleryTask step invocations (retries + 1)

/-! ## `NewsletterRenderer` (newsletter_synthesis.py 263-386) -/

/-- Python `markdown_text.split('\n')`. -/
def splitOnChar (sep : Char) : List Char → List (List Char)
  | [] => [[]]
  | c :: cs =>
    if c = sep then [] :: splitOnChar sep cs
    else
      match splitOnChar sep cs with
      | [] => [[c]]
      | a :: as => (c :: a) :: as

/-- Python `html.split('\n\n')`: split on the two-character separator,
non-overlapping, left to right. -/
def splitOnNN : List Char → List (List Char)
  | '\n' :: '\n' :: rest => [] :: splitOnNN rest
  | c :: rest =>
    match splitOnNN rest with
    | [] => [[c]]
    | a :: as => (c :: a) :: as
  | [] => [[]]

/-- The per-line header conversion of `_markdown_to_html`: `### `/`## `/
`# ` line starts become `<h3>`/`<h2>`/`<h1>` elements. -/
def lineToHtml (line : List Char) : List Char :=
  if listStartsWith "### ".data line then "<h3>".data ++ line.drop 4 ++ "</h3>".data
  else if listStartsWith "## ".data line then "<h2>".data ++ line.drop 3 ++ "</h2>".data
  else if listStartsWith "# ".data line then "<h1>".data ++ line.drop 2 ++ "</h1>".data
  else line

/-- Find the lazy close of `re.sub(r'dd(.*?)dd', ...)` for a doubled
delimiter `d`: the shortest decomposition `l = content ++ [d, d] ++ rest`
whose `content` contains no newline (regex `.` does not match `\n`). -/
def findClosePair (d : Char) : List Char → Option (List Char × List Char)
  | c1 :: c2 :: rest =>
    if c1 = d && c2 = d then some ([], rest)
    else if c1 = '\n' then none
    else (findClosePair d (c2 :: rest)).map (fun p => (c1 :: p.1, p.2))
  | _ => none

/-- One pass of `re.sub(r'\*\*(.*?)\*\*', r'<strong>\1</strong>', ...)`
(and likewise for `__`): leftmost-shortest matches, scanning left to
right; on a failed open the scan advances one character.  `fuel` bounds
the recursion; every recursive call shortens the text, so any
`fuel ≥ l.length` realizes the full substitution. -/
def subPairFuel (d : Char) : Nat → List Char → List Char
  | 0, l => l
  | fuel + 1, l =>
    match l with
    | c1 :: c2 :: rest =>
      if c1 = d && c2 = d then
        match findClosePair d rest with
        | some (content, rest2) =>
          "<strong>".data ++ content ++ "</strong>".data ++ subPairFuel d fuel rest2
        | none => c1 :: subPairFuel d fuel (c2 :: rest)
      else c1 :: subPairFuel d fuel (c2 :: rest)
    | l => l

/-- The doubled-delimiter bold substitution with adequate fuel. -/
def subPair (d : Char) (l : List Char) : List Char := subPairFuel d l.length l

/-- `any(para.startswith(f'<h{i}>') for i in range(1, 7))`. -/
def startsWithHeaderTag (p : List Char) : Bool :=
  listStartsWith "<h1>".data p || listStartsWith "<h2>".data p ||
    listStartsWith "<h3>".data p || listStartsWith "<h4>".data p ||
    listStartsWith "<h5>".data p || listStartsWith "<h6>".data p

/-- The paragraph stage of `_markdown_to_html`: strip each blank-line
separated block, drop empty blocks, keep header blocks as-is, wrap the
rest in `<p>...</p>`. -/
def paraProcess (paras : List (List Char)) : List (List Char) :=
  paras.filterMap (fun para =>
    let para := stripChars para
    if para.isEmpty then none
    else if startsWithHeaderTag para then some para
    else some ("<p>".data ++ para ++ "</p>".data))

/-- `NewsletterRenderer._markdown_to_html`: header lines, then `**`/`__`
bold substitution over the newline-joined text, then blank-line-separated
blocks to paragraphs, joined by newlines. -/
def mdToHtml (markdownText : String) : String :=
  let lines := splitOnChar '\n' markdownText.data
  let processed := lines.map lineToHtml
  let joined := List.intercalate ['\n'] processed
  let bolded := subPair '_' (subPair '*' joined)
  let paras := splitOnNN bolded
  ⟨List.intercalate ['\n'] (paraProcess paras)⟩

/-- `NewsletterRenderer.render_html`: `content.get('subject', 'Newsletter')`,
`content.get('content', '')`, markdown conversion, and the fixed inline-css
template of the source (braces of the CSS rules appear here as `\x7b`/`\x7d`
escapes). -/
def renderHtml (subject : Option String) (content : Option String) : String :=
  let subj := subject.getD "Newsletter"
  let htmlContent := mdToHtml (content.getD "")
  "\n<!DOCTYPE html>\n<html lang=\"en\">\n<head>\n    <meta charset=\"UTF-8\">\n" ++
  "    <meta name=\"viewport\" content=\"width=device-width, initial-scale=1.0\">\n" ++
  "    <title>" ++ subj ++ "</title>\n    <style>\n" ++
  "        body \x7b\n            font-family: Arial, sans-serif;\n" ++
  "            line-height: 1.6;\n            max-width: 600px;\n" ++
  "            margin: 0 auto;\n            padding: 20px;\n" ++
  "            background-color: #f4f4f4;\n        \x7d\n" ++
  "        .container \x7b\n            background-color: white;\n" ++
  "            padding: 30px;\n            border-radius: 5px;\n" ++
  "            box-shadow: 0 2px 5px rgba(0,0,0,0.1);\n        \x7d\n" ++
  "        h1 \x7b\n            color: #333;\n" ++
  "            border-bottom: 3px solid #007bff;\n" ++
  "            padding-bottom: 10px;\n        \x7d\n" ++
  "        h2 \x7b\n            color: #555;\n            margin-top: 25px;\n        \x7d\n" ++
  "        h3 \x7b\n            color: #666;\n        \x7d\n" ++
  "        a \x7b\n            color: #007bff;\n            text-decoration: none;\n        \x7d\n" ++
  "        a:hover \x7b\n            text-decoration: underline;\n        \x7d\n" ++
  "        .footer \x7b\n            margin-top: 30px;\n            padding-top: 20px;\n" ++
  "            border-top: 1px solid #ddd;\n            color: #777;\n" ++
  "            font-size: 0.9em;\n        \x7d\n    </style>\n</head>\n<body>\n" ++
  "    <div class=\"container\">\n        <h1>" ++ subj ++ "</h1>\n        " ++
  htmlContent ++ "\n        <div class=\"footer\">\n" ++
  "            <p>Thank you for reading!</p>\n        </div>\n    </div>\n</body>\n</html>\n"

/-! ## Supporting lemmas -/

theorem hexOfBytes_length (bs : List Nat) : (hexOfBytes bs).length = 2 * bs.length := by
  induction bs with
  | nil => rfl
  | cons b bs ih =>
    show (byteToHex b ++ hexOfBytes bs).length = 2 * (b :: bs).length
    simp [byteToHex, ih]
    omega

theorem sha256_length (msg : List Nat) : (sha256 msg).length = 32 := by
  simp [sha256, word4]

theorem hmacSha256Hex_length (k m : String) : (hmacSha256Hex k m).length = 64 := by
  have h : ∀ key msg : List Nat, (hmacSha256 key msg).length = 32 := by
    intro key msg
    simp [hmacSha256, sha256_length]
  show (hexOfBytes (hmacSha256 (utf8Encode k) (utf8Encode m))).length = 64
  rw [hexOfBytes_length, h]

theorem hexChar_ne_eqSign (n : Nat) : hexChar n ≠ '=' := by
  have h : n % 16 < 16 := Nat.mod_lt _ (by norm_num)
  have hall : ∀ m, m < 16 → "0123456789abcdef".data.getD m '0' ≠ '=' := by decide
  exact hall _ h

theorem eqSign_not_mem_hexOfBytes (bs : List Nat) : '=' ∉ hexOfBytes bs := by
  induction bs with
  | nil => simp [hexOfBytes]
  | cons b bs ih =>
    show '=' ∉ byteToHex b ++ hexOfBytes bs
    simp only [List.mem_append, byteToHex, List.mem_cons, List.not_mem_nil]
    push_neg
    exact ⟨⟨(hexChar_ne_eqSign _).symm, (hexChar_ne_eqSign _).symm, by simp⟩, ih⟩

theorem hmacHex_ne_tsHeader (k m ts h1 : String) :
    hmacSha256Hex k m ≠ "ts=" ++ ts ++ ";h1=" ++ h1 := by
  intro h
  have hd : (hmacSha256Hex k m).data = ("ts=" ++ ts ++ ";h1=" ++ h1).data :=
    congrArg String.data h
  have hmem : '=' ∈ ("ts=" ++ ts ++ ";h1=" ++ h1).data := by
    simp only [String.data_append]
    refine List.mem_append_left _ (List.mem_append_left _ (List.mem_append_left _ ?_))
    decide
  rw [← hd] at hmem
  exact eqSign_not_mem_hexOfBytes _ hmem

/-! ## Claim C1 -/

/-- C1 (corrected).  `verify_webhook_signature` does not implement the
`ts=...;h1=...` scheme the claim describes: with a configured non-empty
secret it hex-HMACs the raw `payload` alone and compares the digest with
the entire `signature` string; any header of the form `ts=...;h1=...` is
therefore rejected (a hex digest contains no `=`), and the verifier also
fails closed on a missing or empty secret. -/
theorem verify_webhook_signature_compares_raw_digest
    (secret payload signature : String) (hsec : secret ≠ "") :
    verifyWebhookSignature (some secret) payload signature =
      (hmacSha256Hex secret payload == signature) ∧
    (∀ ts h1, verifyWebhookSignature (some secret) payload
        ("ts=" ++ ts ++ ";h1=" ++ h1) = false) ∧
    verifyWebhookSignature none payload signature = false ∧
    verifyWebhookSignature (some "") payload signature = false := by
  refine ⟨by simp [verifyWebhookSignature, hsec], ?_, rfl, by simp [verifyWebhookSignature]⟩
  intro ts h1
  simp only [verifyWebhookSignature, hsec, if_false]
  exact beq_eq_false_iff_ne.mpr (hmacHex_ne_tsHeader _ _ _ _)

/-- Witness for C1's theorem: with secret `"whsec"` and payload `"body"`,
passing the bare hex digest verifies, and passing a `ts=...;h1=...` header
whose `h1` is the digest of the timestamp-prefixed payload does not. -/
theorem verify_webhook_signature_compares_raw_digest_witness :
    verifyWebhookSignature (some "whsec") "body" (hmacSha256Hex "whsec" "body") = true ∧
    verifyWebhookSignature (some "whsec") "body"
      ("ts=" ++ "1" ++ ";h1=" ++ hmacSha256Hex "whsec" ("1" ++ "." ++ "body")) = false := by
  have h := verify_webhook_signature_compares_raw_digest "whsec" "body"
    (hmacSha256Hex "whsec" "body") (by decide)
  exact ⟨by rw [h.1]; exact beq_self_eq_true _, h.2.1 "1" (hmacSha256Hex "whsec" ("1" ++ "." ++ "body"))⟩

/-- Counterexample to C1 as stated: a header of the prescribed
`ts=<unix-seconds>;h1=<hex-digest>` form whose `h1` component is exactly
the hex HMAC-SHA256, keyed by the configured secret, of `"ts.body"` —
the claim asserts the verifier returns true here, but it returns false,
because the code compares the digest of the payload alone against the
whole header string. -/
theorem verify_webhook_signature_ts_header_rejected :
    verifyWebhookSignature (some "whsec") "body"
      ("ts=" ++ "1" ++ ";h1=" ++ hmacSha256Hex "whsec" ("1" ++ "." ++ "body")) = false := by
  simp only [verifyWebhookSignature, if_false, reduceCtorEq]
  have hne : ("whsec" : String) ≠ "" := by decide
  simp only [hne, if_false]
  exact beq_eq_false_iff_ne.mpr (hmacHex_ne_tsHeader _ _ _ _)

/-! ## Claim C2 -/

/-- C2 (confirmed).  The module-level verifier `services.verify_paddle_webhook`
returns `True` for every `(data, signature)` pair, including an absent
signature, and consequently the `/auth/paddle/webhook` route never returns
its 403 invalid-signature response. -/
theorem verify_paddle_webhook_always_true :
    (∀ (data : String) (signature : Option String),
      verifyPaddleWebhook data signature = true) ∧
    (∀ (db : List User) (rawBody : String) (sigHeader : Option String) (body : Json),
      (authPaddleWebhookRoute db rawBody sigHeader body).2.1 ≠ 403) := by
  refine ⟨fun _ _ => rfl, fun db rawBody sigHeader body => ?_⟩
  simp only [authPaddleWebhookRoute, verifyPaddleWebhook, Bool.not_true]
  split_ifs <;> simp_all

/-- A hex HMAC digest is never the empty string (it has 64 characters). -/
theorem hmacSha256Hex_ne_empty (k m : String) : hmacSha256Hex k m ≠ "" := by
  intro h
  have hl := congrArg String.length h
  rw [hmacSha256Hex_length] at hl
  simp at hl

/-- With a configured non-empty secret, the verifier accepts the digest it
itself computes for the payload. -/
theorem verifyWebhookSignature_self (secret payload : String) (h : secret ≠ "") :
    verifyWebhookSignature (some secret) payload (hmacSha256Hex secret payload) = true := by
  simp [verifyWebhookSignature, h]

/-! ## Claim C3 -/

/-- C3 (confirmed).  `POST /api/payment/webhook`: an absent or empty
`Paddle-Signature` header yields 400; a present non-empty header that
fails verification yields 401; a verified request whose JSON body carries
a truthy `event_type` yields 200 with body
`(status: "received", event_type: <the event type>)`. -/
theorem paddle_webhook_route_statuses (secret : Option String) (payload : String)
    (sigHeader : Option String) (body : Json) :
    ((sigHeader = none ∨ sigHeader = some "") →
      (paddleWebhookRoute secret payload sigHeader body).1 = 400) ∧
    (∀ s, sigHeader = some s → s ≠ "" →
      verifyWebhookSignature secret payload s = false →
      (paddleWebhookRoute secret payload sigHeader body).1 = 401) ∧
    (∀ s et, sigHeader = some s → s ≠ "" →
      verifyWebhookSignature secret payload s = true →
      body.lookup "event_type" = some et → et.truthy = true →
      paddleWebhookRoute secret payload sigHeader body =
        (200, Json.obj [("status", Json.str "received"), ("event_type", et)])) := by
  refine ⟨?_, ?_, ?_⟩
  · rintro (h | h) <;> subst h <;> simp [paddleWebhookRoute]
  · rintro s rfl hne hv
    simp [paddleWebhookRoute, hne, hv]
  · rintro s et rfl hne hv hl ht
    simp [paddleWebhookRoute, hne, hv, hl, truthyOpt, ht]

/-- Witness for C3's theorem: a concrete 400 (missing header), a concrete
401 (header present, verification fails because no secret is configured),
and a concrete 200 for a verified `transaction.completed` payload. -/
theorem paddle_webhook_route_statuses_witness :
    (paddleWebhookRoute (some "k") "p" none Json.null).1 = 400 ∧
    (paddleWebhookRoute none "p" (some "sig") Json.null).1 = 401 ∧
    paddleWebhookRoute (some "k") "p" (some (hmacSha256Hex "k" "p"))
        (Json.obj [("event_type", Json.str "transaction.completed")]) =
      (200, Json.obj [("status", Json.str "received"),
                      ("event_type", Json.str "transaction.completed")]) := by
  refine ⟨(paddle_webhook_route_statuses (some "k") "p" none Json.null).1 (Or.inl rfl),
    (paddle_webhook_route_statuses none "p" (some "sig") Json.null).2.1 "sig" rfl
      (by decide) rfl,
    (paddle_webhook_route_statuses (some "k") "p" (some (hmacSha256Hex "k" "p")) _).2.2
      (hmacSha256Hex "k" "p") (Json.str "transaction.completed") rfl
      (hmacSha256Hex_ne_empty "k" "p")
      (verifyWebhookSignature_self "k" "p" (by decide)) rfl (by decide)⟩

/-! ## Claim C10 -/

/-- On a non-dict `data` value, the handler call raises and the `except`
yields a `(status: "error", ...)` dict. -/
theorem runHandler_not_obj (handler : Json → Json) (data : Json)
    (h : ∀ fields, data ≠ Json.obj fields) :
    (runHandler handler data).lookup "status" = some (Json.str "error") := by
  cases data with
  | obj fields => exact absurd rfl (h fields)
  | null => rfl
  | bool b => rfl
  | str s => rfl
  | num n => rfl
  | arr elems => rfl

/-- C10 (confirmed).  `process_webhook_event` dispatches to a handler
exactly for the six known event types: on a dict payload the result
carries `status: "success"` precisely for those six, and on a non-dict
payload a handled type yields the `except` branch's `status: "error"`
dict (the handler raised `AttributeError`); every other event type yields
the exact `(status: "unhandled", event_type)` dict without raising; and
the `/api/payment/webhook` route still answers 200 for any (non-empty)
event type on a verified request. -/
theorem process_webhook_event_dispatch (et : String) (eventData : Json) :
    ((∃ fields, eventData = Json.obj fields) →
      ((processWebhookEvent (Json.str et) eventData).lookup "status" =
          some (Json.str "success") ↔ et ∈ handledEventTypes)) ∧
    (et ∉ handledEventTypes →
      processWebhookEvent (Json.str et) eventData =
        Json.obj [("status", Json.str "unhandled"), ("event_type", Json.str et)]) ∧
    (et ∈ handledEventTypes → (∀ fields, eventData ≠ Json.obj fields) →
      (processWebhookEvent (Json.str et) eventData).lookup "status" =
        some (Json.str "error")) ∧
    (∀ secret payload s, s ≠ "" → verifyWebhookSignature secret payload s = true →
      et ≠ "" →
      (paddleWebhookRoute secret payload (some s)
        (Json.obj [("event_type", Json.str et), ("data", eventData)])).1 = 200) := by
  refine ⟨?_, ?_, ?_, ?_⟩
  · rintro ⟨fields, rfl⟩
    simp only [processWebhookEvent, Json.isStr]
    split_ifs with h1 h2 h3 h4 h5 h6 <;>
      simp_all [handledEventTypes, runHandler, Json.lookup, List.find?,
        handleTransactionCompleted, handleTransactionUpdated,
        handleSubscriptionCreated, handleSubscriptionUpdated,
        handleSubscriptionCancelled, handleSubscriptionPastDue]
  · intro h
    simp only [handledEventTypes, List.mem_cons, List.not_mem_nil, or_false] at h
    push_neg at h
    obtain ⟨n1, n2, n3, n4, n5, n6⟩ := h
    simp [processWebhookEvent, Json.isStr, n1, n2, n3, n4, n5, n6]
  · intro hmem hnotobj
    simp only [handledEventTypes, List.mem_cons, List.not_mem_nil, or_false] at hmem
    rcases hmem with rfl | rfl | rfl | rfl | rfl | rfl
    · exact runHandler_not_obj handleTransactionCompleted eventData hnotobj
    · exact runHandler_not_obj handleTransactionUpdated eventData hnotobj
    · exact runHandler_not_obj handleSubscriptionCreated eventData hnotobj
    · exact runHandler_not_obj handleSubscriptionUpdated eventData hnotobj
    · exact runHandler_not_obj handleSubscriptionCancelled eventData hnotobj
    · exact runHandler_not_obj handleSubscriptionPastDue eventData hnotobj
  · intro secret payload s hne hv hetne
    simp [paddleWebhookRoute, hne, hv, Json.lookup, truthyOpt, Json.truthy, hetne]

/-- Witness for C10's theorem: the unknown type `payment.refunded` yields
the unhandled dict yet the route answers 200; the known type
`subscription.cancelled` on a dict payload yields a handler
(`status: "success"`) result; the known type `transaction.completed` on a
`null` payload yields the `except` branch's `status: "error"` dict. -/
theorem process_webhook_event_dispatch_witness :
    processWebhookEvent (Json.str "payment.refunded") Json.null =
      Json.obj [("status", Json.str "unhandled"),
                ("event_type", Json.str "payment.refunded")] ∧
    (paddleWebhookRoute (some "k") "p" (some (hmacSha256Hex "k" "p"))
      (Json.obj [("event_type", Json.str "payment.refunded"),
                 ("data", Json.null)])).1 = 200 ∧
    (processWebhookEvent (Json.str "subscription.cancelled")
        (Json.obj [])).lookup "status" = some (Json.str "success") ∧
    (processWebhookEvent (Json.str "transaction.completed")
        Json.null).lookup "status" = some (Json.str "error") := by
  refine ⟨(process_webhook_event_dispatch "payment.refunded" Json.null).2.1 (by decide),
    (process_webhook_event_dispatch "payment.refunded" Json.null).2.2.2 (some "k") "p"
      (hmacSha256Hex "k" "p") (hmacSha256Hex_ne_empty "k" "p")
      (verifyWebhookSignature_self "k" "p" (by decide)) (by decide),
    ((process_webhook_event_dispatch "subscription.cancelled" (Json.obj [])).1
      ⟨[], rfl⟩).mpr (by decide),
    (process_webhook_event_dispatch "transaction.completed" Json.null).2.2.1
      (by decide) (fun fields h => Json.noConfusion h)⟩

/-! ## Claim C5 -/

/-- C5 (code bug in `/api/generate`).  `InputValidator.validate_topic`
does reject a too-short topic and a `<script` topic, but the route never
calls it: for the topic `"ab"` (length 2 < MIN_TOPIC_LENGTH = 3) and for a
topic containing `<script`, `POST /api/generate` answers 202 processing,
not the 400 the specification requires. -/
theorem generate_route_skips_topic_validation :
    generateNewsletterRoute (Json.obj [("topic", Json.str "ab")]) =
      (202, Json.obj [("status", Json.str "processing"), ("topic", Json.str "ab")]) ∧
    validateTopic (some "ab") = (false, some "Topic must be at least 3 characters") ∧
    generateNewsletterRoute
        (Json.obj [("topic", Json.str "news <script>alert(1)</script>")]) =
      (202, Json.obj [("status", Json.str "processing"),
                      ("topic", Json.str "news <script>alert(1)</script>")]) ∧
    validateTopic (some "news <script>alert(1)</script>") =
      (false, some "Topic contains invalid characters") ∧
    generateNewsletterRoute (Json.obj [("topic", Json.str "")]) =
      (400, Json.obj [("error", Json.str "No topic provided")]) :=
  ⟨rfl, rfl, rfl, rfl, rfl⟩

/-! ## Claim C6 -/

/-- C6 (confirmed).  Task retries: a failed execution of
`generate_newsletter_async` at retry count `r < 3` re-queues with
countdown `60 * 2 ^ r` and at `r ≥ 3` returns the structured error dict;
`send_email_async` re-queues with `30 * 2 ^ r` for `r < 5` and returns its
error dict at `r ≥ 5`; and a generation run that fails twice and then
succeeds completes with the successful result. -/
theorem task_retry_backoff (retries : Nat) (res : Json)
    (toEmail subject sentAt : String) :
    (retries < 3 → generateNewsletterStep retries none =
      TaskStep.retryAt (60 * 2 ^ retries)) ∧
    (3 ≤ retries → generateNewsletterStep retries none =
      TaskStep.errorDict (Json.obj
        [("error", Json.str "Failed to generate newsletter after multiple retries")])) ∧
    (generateNewsletterStep retries (some res) = TaskStep.success res) ∧
    (retries < 5 → sendEmailStep toEmail subject sentAt retries false =
      TaskStep.retryAt (30 * 2 ^ retries)) ∧
    (5 ≤ retries → sendEmailStep toEmail subject sentAt retries false =
      TaskStep.errorDict (Json.obj [("success", Json.bool false),
        ("error", Json.str "Failed to send email after multiple retries"),
        ("to_email", Json.str toEmail)])) ∧
    (runCeleryTask (fun r => generateNewsletterStep r (if r < 2 then none else some res))
        4 0 = some (TaskFinal.completed res)) := by
  refine ⟨?_, ?_, rfl, ?_, ?_, rfl⟩
  · intro h
    simp [generateNewsletterStep, celeryRetryExceeded]
    omega
  · intro h
    simp [generateNewsletterStep, celeryRetryExceeded]
    omega
  · intro h
    simp [sendEmailStep, celeryRetryExceeded]
    omega
  · intro h
    simp [sendEmailStep, celeryRetryExceeded]
    omega

/-- Witness for C6's theorem at concrete retry counts: countdowns 120 and
480 at retry counts 1 and 4, both error dicts at the exhaustion counts,
and the fail-fail-succeed run. -/
theorem task_retry_backoff_witness :
    generateNewsletterStep 1 none = TaskStep.retryAt 120 ∧
    generateNewsletterStep 3 none = TaskStep.errorDict (Json.obj
      [("error", Json.str "Failed to generate newsletter after multiple retries")]) ∧
    sendEmailStep "u@example.com" "Hello" "t0" 4 false = TaskStep.retryAt 480 ∧
    sendEmailStep "u@example.com" "Hello" "t0" 5 false =
      TaskStep.errorDict (Json.obj [("success", Json.bool false),
        ("error", Json.str "Failed to send email after multiple retries"),
        ("to_email", Json.str "u@example.com")]) ∧
    runCeleryTask
        (fun r => generateNewsletterStep r (if r < 2 then none else some Json.null))
        4 0 = some (TaskFinal.completed Json.null) := by
  have h1 := task_retry_backoff 1 Json.null "u@example.com" "Hello" "t0"
  have h3 := task_retry_backoff 3 Json.null "u@example.com" "Hello" "t0"
  have h4 := task_retry_backoff 4 Json.null "u@example.com" "Hello" "t0"
  have h5 := task_retry_backoff 5 Json.null "u@example.com" "Hello" "t0"
  exact ⟨h1.1 (by decide), h3.2.1 (by decide), h4.2.2.2.1 (by decide),
    h5.2.2.2.2.1 (by decide), h1.2.2.2.2.2⟩

/-! ## Claims C7 and C8 -/

theorem listStartsWith_append (p r : List Char) : listStartsWith p (p ++ r) = true := by
  induction p with
  | nil => rfl
  | cons c cs ih => simp [listStartsWith, ih]

theorem containsSeq_of_listStartsWith (pat l : List Char)
    (h : listStartsWith pat l = true) : containsSeq pat l = true := by
  cases l with
  | nil =>
    cases pat with
    | nil => rfl
    | cons p ps => simp [listStartsWith] at h
  | cons c cs => simp [containsSeq, h]

theorem containsSeq_sandwich (pre pat post : List Char) :
    containsSeq pat (pre ++ (pat ++ post)) = true := by
  induction pre with
  | nil => exact containsSeq_of_listStartsWith _ _ (listStartsWith_append pat post)
  | cons c cs ih => simp [containsSeq, ih]

/-- Every mock result's title contains the query as a substring. -/
theorem mock_title_contains_query (query : String) (i : Nat) :
    strContains ("Mock Result " ++ toString (i + 1) ++ " for \"" ++ query ++ "\"")
      query = true := by
  show containsSeq query.data _ = true
  have hd : ("Mock Result " ++ toString (i + 1) ++ " for \"" ++ query ++ "\"").data =
      (("Mock Result " ++ toString (i + 1) ++ " for \"").data ++
        (query.data ++ "\"".data)) := by
    simp [String.data_append]
  rw [hd]
  exact containsSeq_sandwich _ _ _

/-- C7 (confirmed).  With no API key and fallback enabled, `search_brave`
returns the mock results for any HTTP outcome: `success=true`,
`source="mock"`, exactly `min count 5` results, each of whose titles
contains the query; in particular `count = 3` gives 3 results and
`count = 100` gives 5. -/
theorem search_mock_fallback (query : String) (count : Nat) (outcome : HttpOutcome) :
    searchBrave none query count true outcome = mockSearchResults query count ∧
    (mockSearchResults query count).success = true ∧
    (mockSearchResults query count).source = "mock" ∧
    (mockSearchResults query count).results.length = min count 5 ∧
    (∀ r ∈ (mockSearchResults query count).results,
      ∃ t, r.title = Json.str t ∧ strContains t query = true) ∧
    (searchBrave none query 3 true outcome).results.length = 3 ∧
    (searchBrave none query 100 true outcome).results.length = 5 := by
  refine ⟨by simp [searchBrave], rfl, rfl, by simp [mockSearchResults], ?_, ?_, ?_⟩
  · intro r hr
    simp only [mockSearchResults, List.mem_map, List.mem_range] at hr
    obtain ⟨i, _, rfl⟩ := hr
    exact ⟨_, rfl, mock_title_contains_query query i⟩
  · simp [searchBrave, mockSearchResults]
  · simp [searchBrave, mockSearchResults]

/-- Witness for C7's theorem at query `"x"`: counts 3 and 100, and the
first mock result's title contains `"x"`. -/
theorem search_mock_fallback_witness :
    searchBrave none "x" 3 true HttpOutcome.timeout = mockSearchResults "x" 3 ∧
    (searchBrave none "x" 3 true HttpOutcome.timeout).results.length = 3 ∧
    (searchBrave none "x" 100 true HttpOutcome.timeout).results.length = 5 ∧
    ∃ r, r ∈ (mockSearchResults "x" 3).results ∧
      ∃ t, r.title = Json.str t ∧ strContains t "x" = true := by
  have h := search_mock_fallback "x" 3 HttpOutcome.timeout
  have h100 := search_mock_fallback "x" 100 HttpOutcome.timeout
  have hmem : ((mockSearchResults "x" 3).results.getD 0
      ⟨Json.null, Json.null, Json.null⟩) ∈ (mockSearchResults "x" 3).results :=
    List.mem_cons_self _ _
  exact ⟨h.1, h.2.2.2.2.2.1, h100.2.2.2.2.2.2, _, hmem,
    h.2.2.2.2.1 _ hmem⟩

/-- The failure modes of `search_brave`: missing/empty API key, non-200
response, timeout, or any exception. -/
def searchFailureMode (apiKey : Option String) (outcome : HttpOutcome) : Bool :=
  (match apiKey with | none => true | some k => k = "") ||
    (match outcome with
     | .resp code _ => code ≠ 200
     | .timeout => true
     | .exn _ => true)

/-- C8 (confirmed).  In every failure mode `search_brave` returns a result
dict (the embedding is a total function, so no exception can propagate):
the mock results tagged `source="mock"` when `fallback_to_mock` holds, and
`success=false` with empty results and an error string otherwise. -/
theorem search_brave_never_raises (apiKey : Option String) (query : String)
    (count : Nat) (fallbackToMock : Bool) (outcome : HttpOutcome)
    (hfail : searchFailureMode apiKey outcome = true) :
    (fallbackToMock = true →
      searchBrave apiKey query count fallbackToMock outcome =
        mockSearchResults query count ∧
      (mockSearchResults query count).source = "mock" ∧
      (mockSearchResults query count).success = true) ∧
    (fallbackToMock = false →
      (searchBrave apiKey query count fallbackToMock outcome).success = false ∧
      (searchBrave apiKey query count fallbackToMock outcome).results = [] ∧
      (searchBrave apiKey query count fallbackToMock outcome).error ≠ none) := by
  have hkey : (apiKey = none ∨ apiKey = some "") ∨
      ∃ k, apiKey = some k ∧ k ≠ "" := by
    cases apiKey with
    | none => exact Or.inl (Or.inl rfl)
    | some k =>
      by_cases hk : k = ""
      · exact Or.inl (Or.inr (by rw [hk]))
      · exact Or.inr ⟨k, rfl, hk⟩
  rcases hkey with (rfl | rfl) | ⟨k, rfl, hk⟩
  · exact ⟨fun h => by subst h; exact ⟨by simp [searchBrave], rfl, rfl⟩,
      fun h => by subst h; simp [searchBrave, braveFailure]⟩
  · exact ⟨fun h => by subst h; exact ⟨by simp [searchBrave], rfl, rfl⟩,
      fun h => by subst h; simp [searchBrave, braveFailure]⟩
  · have hout : (match outcome with
        | HttpOutcome.resp code _ => code ≠ 200
        | HttpOutcome.timeout => True
        | HttpOutcome.exn _ => True) := by
      simp only [searchFailureMode, hk, decide_eq_true_eq, Bool.false_or] at hfail
      cases outcome with
      | resp code data => simpa using hfail
      | timeout => trivial
      | exn msg => trivial
    constructor <;> rintro rfl
    · cases outcome with
      | resp code data =>
        exact ⟨by simp [searchBrave, hk, hout], rfl, rfl⟩
      | timeout => exact ⟨by simp [searchBrave, hk], rfl, rfl⟩
      | exn msg => exact ⟨by simp [searchBrave, hk], rfl, rfl⟩
    · cases outcome with
      | resp code data => simp [searchBrave, hk, hout, braveFailure]
      | timeout => simp [searchBrave, hk, braveFailure]
      | exn msg => simp [searchBrave, hk, braveFailure]

/-- Witness for C8's theorem: missing key with fallback gives the mock
results; a configured key with a 500 response and no fallback gives a
`success=false` result with an error string. -/
theorem search_brave_never_raises_witness :
    searchBrave none "q" 4 true HttpOutcome.timeout = mockSearchResults "q" 4 ∧
    (searchBrave (some "key") "q" 4 false (HttpOutcome.resp 500 Json.null)).success
        = false ∧
    (searchBrave (some "key") "q" 4 false (HttpOutcome.resp 500 Json.null)).results
        = [] ∧
    (searchBrave (some "key") "q" 4 false (HttpOutcome.resp 500 Json.null)).error
        ≠ none := by
  have h1 := (search_brave_never_raises none "q" 4 true HttpOutcome.timeout
    (by decide)).1 rfl
  have h2 := (search_brave_never_raises (some "key") "q" 4 false
    (HttpOutcome.resp 500 Json.null) (by decide)).2 rfl
  exact ⟨h1.1, h2.1, h2.2.1, h2.2.2⟩

/-! ## Claim C4 -/

theorem Json.beq_str_str (a b : String) :
    Json.beq (Json.str a) (Json.str b) = (a == b) := by
  simp [Json.beq]

theorem updateFirst_of_forall_not (p : User → Bool) (f : User → User)
    (l : List User) (h : ∀ u ∈ l, p u = false) : updateFirst p f l = l := by
  induction l with
  | nil => rfl
  | cons u us ih =>
    simp [updateFirst, h u (List.mem_cons_self u us),
      ih (fun v hv => h v (List.mem_cons_of_mem u hv))]

theorem updateFirst_first_match (p : User → Bool) (f : User → User)
    (l1 : List User) (u : User) (l2 : List User)
    (h1 : ∀ v ∈ l1, p v = false) (h2 : p u = true) :
    updateFirst p f (l1 ++ u :: l2) = l1 ++ f u :: l2 := by
  induction l1 with
  | nil => simp [updateFirst, h2]
  | cons v vs ih =>
    simp [updateFirst, h1 v (List.mem_cons_self v vs),
      ih (fun w hw => h1 w (List.mem_cons_of_mem v hw))]

/-- Counterexample to C4 as stated: a `subscription.cancelled` (double-l)
billing event whose `subscription_id` matches an existing active user.
The claim says processing it sets that user's `is_active` to false; in the
code the auth route only matches the single-l spelling
`subscription.canceled`, so the event falls through every branch and the
user table is returned unchanged (the user still active), while
`PaddlePaymentService._handle_subscription_cancelled` — the handler that
does receive the double-l spelling — only builds a result dict and touches
no database row. -/
theorem subscription_cancelled_event_leaves_db_unchanged :
    authPaddleWebhookRoute
        [{ id := 1, email := "a@example.com",
           subscriptionId := some (Json.str "sub_1"), isActive := true }]
        "raw" (some "ts=1;h1=abc")
        (Json.obj [("event_type", Json.str "subscription.cancelled"),
                   ("data", Json.obj [("id", Json.str "sub_1")])]) =
      ([{ id := 1, email := "a@example.com",
          subscriptionId := some (Json.str "sub_1"), isActive := true }],
       200, Json.obj [("status", Json.str "webhook processed")]) ∧
    handleSubscriptionCancelled (Json.obj [("id", Json.str "sub_1")]) =
      Json.obj [("status", Json.str "success"),
                ("event_type", Json.str "subscription.cancelled"),
                ("subscription_id", Json.str "sub_1"),
                ("cancelled_at", Json.null)] :=
  ⟨rfl, rfl⟩

/-- C4 (corrected).  For a `subscription.canceled` (single-l) event with a
non-empty string `subscription_id`, the auth webhook route deactivates
exactly the first user whose stored subscription id matches — flipping
only `is_active` and leaving every other user untouched — and performs no
mutation when no user matches; a `subscription.cancelled` (double-l)
event matches no branch and leaves the user table unchanged. -/
theorem subscription_canceled_deactivates_matching_user (db : List User)
    (rawBody : String) (sigHeader : Option String) (subId : String)
    (hsub : subId ≠ "") :
    (authPaddleWebhookRoute db rawBody sigHeader
        (Json.obj [("event_type", Json.str "subscription.canceled"),
                   ("data", Json.obj [("id", Json.str subId)])]) =
      (updateFirst (subIdMatches (Json.str subId)) (fun u => { u with isActive := false }) db,
       200, Json.obj [("status", Json.str "webhook processed")])) ∧
    ((∀ u ∈ db, subIdMatches (Json.str subId) u = false) →
      (authPaddleWebhookRoute db rawBody sigHeader
        (Json.obj [("event_type", Json.str "subscription.canceled"),
                   ("data", Json.obj [("id", Json.str subId)])])).1 = db) ∧
    (∀ l1 u l2, db = l1 ++ u :: l2 →
      (∀ v ∈ l1, subIdMatches (Json.str subId) v = false) →
      subIdMatches (Json.str subId) u = true →
      (authPaddleWebhookRoute db rawBody sigHeader
        (Json.obj [("event_type", Json.str "subscription.canceled"),
                   ("data", Json.obj [("id", Json.str subId)])])).1 =
        l1 ++ { u with isActive := false } :: l2) ∧
    (authPaddleWebhookRoute db rawBody sigHeader
        (Json.obj [("event_type", Json.str "subscription.cancelled"),
                   ("data", Json.obj [("id", Json.str subId)])]) =
      (db, 200, Json.obj [("status", Json.str "webhook processed")])) := by
  have hroute : authPaddleWebhookRoute db rawBody sigHeader
      (Json.obj [("event_type", Json.str "subscription.canceled"),
                 ("data", Json.obj [("id", Json.str subId)])]) =
      (updateFirst (subIdMatches (Json.str subId)) (fun u => { u with isActive := false }) db,
       200, Json.obj [("status", Json.str "webhook processed")]) := by
    simp [authPaddleWebhookRoute, verifyPaddleWebhook, Json.lookup, truthyOpt,
      Json.truthy, Json.isStr, hsub]
  refine ⟨hroute, ?_, ?_, ?_⟩
  · intro h
    rw [hroute]
    exact updateFirst_of_forall_not _ _ db h
  · rintro l1 u l2 rfl h1 h2
    rw [hroute]
    show updateFirst _ _ (l1 ++ u :: l2) = _
    exact updateFirst_first_match _ _ l1 u l2 h1 h2
  · simp [authPaddleWebhookRoute, verifyPaddleWebhook, Json.lookup, truthyOpt,
      Json.truthy, Json.isStr, hsub]

/-- Witness for C4's theorem: a two-user table where the second user holds
the cancelled subscription — the route flips only that user's `is_active`;
an unknown subscription id leaves the table unchanged; the double-l
spelling leaves the table unchanged. -/
theorem subscription_canceled_deactivates_matching_user_witness :
    (authPaddleWebhookRoute
        [{ id := 1, email := "a@example.com",
           subscriptionId := some (Json.str "sub_1"), isActive := true },
         { id := 2, email := "b@example.com",
           subscriptionId := some (Json.str "sub_9"), isActive := true }]
        "raw" (some "sig")
        (Json.obj [("event_type", Json.str "subscription.canceled"),
                   ("data", Json.obj [("id", Json.str "sub_9")])])).1 =
      [{ id := 1, email := "a@example.com",
         subscriptionId := some (Json.str "sub_1"), isActive := true },
       { id := 2, email := "b@example.com",
         subscriptionId := some (Json.str "sub_9"), isActive := false }] ∧
    (authPaddleWebhookRoute
        [{ id := 1, email := "a@example.com",
           subscriptionId := some (Json.str "sub_1"), isActive := true }]
        "raw" (some "sig")
        (Json.obj [("event_type", Json.str "subscription.canceled"),
                   ("data", Json.obj [("id", Json.str "sub_404")])])).1 =
      [{ id := 1, email := "a@example.com",
         subscriptionId := some (Json.str "sub_1"), isActive := true }] ∧
    (authPaddleWebhookRoute
        [{ id := 1, email := "a@example.com",
           subscriptionId := some (Json.str "sub_1"), isActive := true }]
        "raw" (some "sig")
        (Json.obj [("event_type", Json.str "subscription.cancelled"),
                   ("data", Json.obj [("id", Json.str "sub_1")])])) =
      ([{ id := 1, email := "a@example.com",
          subscriptionId := some (Json.str "sub_1"), isActive := true }],
       200, Json.obj [("status", Json.str "webhook processed")]) := by
  have hne : ∀ a b : String, a ≠ b →
      subIdMatches (Json.str b)
        (User.mk 1 "a@example.com" (some (Json.str a)) true) = false := by
    intro a b hab
    simp [subIdMatches, Json.beq_str_str, hab]
  have h1 := (subscription_canceled_deactivates_matching_user
    [{ id := 1, email := "a@example.com",
       subscriptionId := some (Json.str "sub_1"), isActive := true },
     { id := 2, email := "b@example.com",
       subscriptionId := some (Json.str "sub_9"), isActive := true }]
    "raw" (some "sig") "sub_9" (by decide)).2.2.1
    [{ id := 1, email := "a@example.com",
       subscriptionId := some (Json.str "sub_1"), isActive := true }]
    { id := 2, email := "b@example.com",
      subscriptionId := some (Json.str "sub_9"), isActive := true }
    [] rfl
    (by
      intro v hv
      simp only [List.mem_singleton] at hv
      subst hv
      exact hne "sub_1" "sub_9" (by decide))
    (by simp [subIdMatches, Json.beq_str_str])
  have h2 := (subscription_canceled_deactivates_matching_user
    [{ id := 1, email := "a@example.com",
       subscriptionId := some (Json.str "sub_1"), isActive := true }]
    "raw" (some "sig") "sub_404" (by decide)).2.1
    (by
      intro u hu
      simp only [List.mem_singleton] at hu
      subst hu
      exact hne "sub_1" "sub_404" (by decide))
  have h3 := (subscription_canceled_deactivates_matching_user
    [{ id := 1, email := "a@example.com",
       subscriptionId := some (Json.str "sub_1"), isActive := true }]
    "raw" (some "sig") "sub_1" (by decide)).2.2.2
  exact ⟨h1, h2, h3⟩

/-! ## Claim C9 -/

theorem splitOnChar_of_not_mem (sep : Char) (l : List Char) (h : sep ∉ l) :
    splitOnChar sep l = [l] := by
  induction l with
  | nil => rfl
  | cons c cs ih =>
    simp only [List.mem_cons, not_or] at h
    have hne : ¬(c = sep) := fun hh => h.1 hh.symm
    simp [splitOnChar, hne, ih h.2]

theorem subPairFuel_of_not_mem (d : Char) (fuel : Nat) (l : List Char)
    (h : d ∉ l) : subPairFuel d fuel l = l := by
  induction fuel generalizing l with
  | zero => rfl
  | succ fuel ih =>
    cases l with
    | nil => rfl
    | cons c1 rest1 =>
      cases rest1 with
      | nil => rfl
      | cons c2 rest =>
        simp only [List.mem_cons, not_or] at h
        have h1 : ¬(c1 = d) := fun hh => h.1 hh.symm
        have h2 : d ∉ c2 :: rest := by
          simp only [List.mem_cons, not_or]
          exact ⟨h.2.1, h.2.2⟩
        simp [subPairFuel, h1, ih _ h2]

theorem subPair_of_not_mem (d : Char) (l : List Char) (h : d ∉ l) :
    subPair d l = l :=
  subPairFuel_of_not_mem d l.length l h

theorem splitOnNN_of_not_mem (l : List Char) (h : '\n' ∉ l) :
    splitOnNN l = [l] := by
  induction l with
  | nil => rfl
  | cons c cs ih =>
    simp only [List.mem_cons, not_or] at h
    have hc : ¬(c = '\n') := fun hh => h.1 hh.symm
    have hrec := ih h.2
    cases cs with
    | nil =>
      rw [splitOnNN.eq_def]
      simp [hc, hrec]
    | cons c2 rest =>
      rw [splitOnNN.eq_def]
      simp [hc, hrec]

theorem stripChars_sandwich (a e : Char) (mid : List Char)
    (ha : pySpace a = false) (he : pySpace e = false) :
    stripChars (a :: (mid ++ [e])) = a :: (mid ++ [e]) := by
  have h1 : (a :: (mid ++ [e])).dropWhile pySpace = a :: (mid ++ [e]) := by
    simp [List.dropWhile_cons, ha]
  have h2 : (a :: (mid ++ [e])).reverse.dropWhile pySpace =
      (a :: (mid ++ [e])).reverse := by
    have hrev : (a :: (mid ++ [e])).reverse = e :: (mid.reverse ++ [a]) := by simp
    rw [hrev, List.dropWhile_cons]
    simp [he]
  show ((List.dropWhile pySpace (a :: (mid ++ [e]))).reverse.dropWhile pySpace).reverse
      = a :: (mid ++ [e])
  rw [h1, h2, List.reverse_reverse]

theorem strOfData (s t : String) (h : s.data = t.data) : s = t := by
  cases s; cases t; exact congrArg String.mk h

theorem mdPipeline_header (l : List Char) (hn : '\n' ∉ l) (hs : '*' ∉ l)
    (hu : '_' ∉ l) (hhead : startsWithHeaderTag l = true)
    (hstrip : stripChars l = l) (hne : l.isEmpty = false) :
    List.intercalate ['\n'] (paraProcess (splitOnNN (subPair '_' (subPair '*' l)))) = l := by
  rw [subPair_of_not_mem '*' l hs, subPair_of_not_mem '_' l hu,
    splitOnNN_of_not_mem l hn]
  have hne' : ¬(l = []) := by
    intro hl
    rw [hl] at hne
    simp at hne
  simp [paraProcess, List.filterMap_cons, hstrip, hne', hhead, List.intercalate]

theorem mdToHtml_single_header (s : String) (l : List Char)
    (hn : '\n' ∉ s.data) (hline : lineToHtml s.data = l)
    (hln : '\n' ∉ l) (hs : '*' ∉ l) (hu : '_' ∉ l)
    (hhead : startsWithHeaderTag l = true) (hstrip : stripChars l = l)
    (hne : l.isEmpty = false) :
    mdToHtml s = ⟨l⟩ := by
  show String.mk (List.intercalate ['\n'] (paraProcess (splitOnNN (subPair '_'
    (subPair '*' (List.intercalate ['\n']
      ((splitOnChar '\n' s.data).map lineToHtml))))))) = ⟨l⟩
  rw [splitOnChar_of_not_mem '\n' s.data hn]
  simp only [List.map_cons, List.map_nil]
  rw [hline, show List.intercalate ['\n'] [l] = l from by simp [List.intercalate]]
  exact congrArg String.mk (mdPipeline_header l hln hs hu hhead hstrip hne)

theorem mdToHtml_h1 (t : String) (hn : '\n' ∉ t.data) (hs : '*' ∉ t.data)
    (hu : '_' ∉ t.data) : mdToHtml ("# " ++ t) = "<h1>" ++ t ++ "</h1>" := by
  have hdata : ("# " ++ t).data = '#' :: ' ' :: t.data := by
    simp [String.data_append]
  have hline : lineToHtml (("# " ++ t).data) =
      "<h1>".data ++ t.data ++ "</h1>".data := by
    rw [hdata]
    simp [lineToHtml, listStartsWith]
  have hln : '\n' ∉ "<h1>".data ++ t.data ++ "</h1>".data := by
    simp only [List.mem_append, not_or]
    exact ⟨⟨by decide, hn⟩, by decide⟩
  have hs' : '*' ∉ "<h1>".data ++ t.data ++ "</h1>".data := by
    simp only [List.mem_append, not_or]
    exact ⟨⟨by decide, hs⟩, by decide⟩
  have hu' : '_' ∉ "<h1>".data ++ t.data ++ "</h1>".data := by
    simp only [List.mem_append, not_or]
    exact ⟨⟨by decide, hu⟩, by decide⟩
  have hshape : "<h1>".data ++ t.data ++ "</h1>".data =
      '<' :: (("h1>".data ++ t.data ++ "</h1".data) ++ ['>']) := by
    simp
  have hstrip : stripChars ("<h1>".data ++ t.data ++ "</h1>".data) =
      "<h1>".data ++ t.data ++ "</h1>".data := by
    rw [hshape]
    exact stripChars_sandwich '<' '>' _ (by decide) (by decide)
  have hhead : startsWithHeaderTag ("<h1>".data ++ t.data ++ "</h1>".data) = true := by
    simp [startsWithHeaderTag, listStartsWith]
  have hne : ("<h1>".data ++ t.data ++ "</h1>".data).isEmpty = false := by
    simp
  have hn0 : '\n' ∉ ("# " ++ t).data := by
    rw [hdata]
    simp only [List.mem_cons, not_or]
    exact ⟨by decide, by decide, hn⟩
  rw [mdToHtml_single_header ("# " ++ t) _ hn0 hline hln hs' hu' hhead hstrip hne]
  exact strOfData _ _ (by simp [String.data_append])

theorem mdToHtml_h2 (t : String) (hn : '\n' ∉ t.data) (hs : '*' ∉ t.data)
    (hu : '_' ∉ t.data) : mdToHtml ("## " ++ t) = "<h2>" ++ t ++ "</h2>" := by
  have hdata : ("## " ++ t).data = '#' :: '#' :: ' ' :: t.data := by
    simp [String.data_append]
  have hline : lineToHtml (("## " ++ t).data) =
      "<h2>".data ++ t.data ++ "</h2>".data := by
    rw [hdata]
    simp [lineToHtml, listStartsWith]
  have hln : '\n' ∉ "<h2>".data ++ t.data ++ "</h2>".data := by
    simp only [List.mem_append, not_or]
    exact ⟨⟨by decide, hn⟩, by decide⟩
  have hs' : '*' ∉ "<h2>".data ++ t.data ++ "</h2>".data := by
    simp only [List.mem_append, not_or]
    exact ⟨⟨by decide, hs⟩, by decide⟩
  have hu' : '_' ∉ "<h2>".data ++ t.data ++ "</h2>".data := by
    simp only [List.mem_append, not_or]
    exact ⟨⟨by decide, hu⟩, by decide⟩
  have hshape : "<h2>".data ++ t.data ++ "</h2>".data =
      '<' :: (("h2>".data ++ t.data ++ "</h2".data) ++ ['>']) := by
    simp
  have hstrip : stripChars ("<h2>".data ++ t.data ++ "</h2>".data) =
      "<h2>".data ++ t.data ++ "</h2>".data := by
    rw [hshape]
    exact stripChars_sandwich '<' '>' _ (by decide) (by decide)
  have hhead : startsWithHeaderTag ("<h2>".data ++ t.data ++ "</h2>".data) = true := by
    simp [startsWithHeaderTag, listStartsWith]
  have hne : ("<h2>".data ++ t.data ++ "</h2>".data).isEmpty = false := by
    simp
  have hn0 : '\n' ∉ ("## " ++ t).data := by
    rw [hdata]
    simp only [List.mem_cons, not_or]
    exact ⟨by decide, by decide, by decide, hn⟩
  rw [mdToHtml_single_header ("## " ++ t) _ hn0 hline hln hs' hu' hhead hstrip hne]
  exact strOfData _ _ (by simp [String.data_append])

theorem mdToHtml_h3 (t : String) (hn : '\n' ∉ t.data) (hs : '*' ∉ t.data)
    (hu : '_' ∉ t.data) : mdToHtml ("### " ++ t) = "<h3>" ++ t ++ "</h3>" := by
  have hdata : ("### " ++ t).data = '#' :: '#' :: '#' :: ' ' :: t.data := by
    simp [String.data_append]
  have hline : lineToHtml (("### " ++ t).data) =
      "<h3>".data ++ t.data ++ "</h3>".data := by
    rw [hdata]
    simp [lineToHtml, listStartsWith]
  have hln : '\n' ∉ "<h3>".data ++ t.data ++ "</h3>".data := by
    simp only [List.mem_append, not_or]
    exact ⟨⟨by decide, hn⟩, by decide⟩
  have hs' : '*' ∉ "<h3>".data ++ t.data ++ "</h3>".data := by
    simp only [List.mem_append, not_or]
    exact ⟨⟨by decide, hs⟩, by decide⟩
  have hu' : '_' ∉ "<h3>".data ++ t.data ++ "</h3>".data := by
    simp only [List.mem_append, not_or]
    exact ⟨⟨by decide, hu⟩, by decide⟩
  have hshape : "<h3>".data ++ t.data ++ "</h3>".data =
      '<' :: (("h3>".data ++ t.data ++ "</h3".data) ++ ['>']) := by
    simp
  have hstrip : stripChars ("<h3>".data ++ t.data ++ "</h3>".data) =
      "<h3>".data ++ t.data ++ "</h3>".data := by
    rw [hshape]
    exact stripChars_sandwich '<' '>' _ (by decide) (by decide)
  have hhead : startsWithHeaderTag ("<h3>".data ++ t.data ++ "</h3>".data) = true := by
    simp [startsWithHeaderTag, listStartsWith]
  have hne : ("<h3>".data ++ t.data ++ "</h3>".data).isEmpty = false := by
    simp
  have hn0 : '\n' ∉ ("### " ++ t).data := by
    rw [hdata]
    simp only [List.mem_cons, not_or]
    exact ⟨by decide, by decide, by decide, by decide, hn⟩
  rw [mdToHtml_single_header ("### " ++ t) _ hn0 hline hln hs' hu' hhead hstrip hne]
  exact strOfData _ _ (by simp [String.data_append])

set_option maxRecDepth 100000

/-- C9 (confirmed).  The markdown subset of the renderer: a `# `/`## `/
`### ` prefixed line becomes the corresponding `<h1>`/`<h2>`/`<h3>`
element (for any plain text `t` without newlines, `*` or `_`); `**x**` and
`__x__` become `<strong>` bold; blank-line-separated blocks become `<p>`
paragraphs; and `render_html` on subject `"S"` and content `"# H\n\nP"`
contains `<h1>H</h1>`, `<p>P</p>` and the literal subject. -/
theorem markdown_renderer_subset (t : String) (hn : '\n' ∉ t.data)
    (hs : '*' ∉ t.data) (hu : '_' ∉ t.data) :
    mdToHtml ("# " ++ t) = "<h1>" ++ t ++ "</h1>" ∧
    mdToHtml ("## " ++ t) = "<h2>" ++ t ++ "</h2>" ∧
    mdToHtml ("### " ++ t) = "<h3>" ++ t ++ "</h3>" ∧
    mdToHtml "**x**" = "<p><strong>x</strong></p>" ∧
    mdToHtml "__x__" = "<p><strong>x</strong></p>" ∧
    mdToHtml "A\n\nB" = "<p>A</p>\n<p>B</p>" ∧
    strContains (renderHtml (some "S") (some "# H\n\nP")) "<h1>H</h1>" = true ∧
    strContains (renderHtml (some "S") (some "# H\n\nP")) "<p>P</p>" = true ∧
    strContains (renderHtml (some "S") (some "# H\n\nP")) "S" = true :=
  ⟨mdToHtml_h1 t hn hs hu, mdToHtml_h2 t hn hs hu, mdToHtml_h3 t hn hs hu,
    rfl, rfl, rfl, rfl, rfl, rfl⟩

/-- Witness for C9's theorem at the plain text `"Title"`. -/
theorem markdown_renderer_subset_witness :
    mdToHtml ("# " ++ "Title") = "<h1>" ++ "Title" ++ "</h1>" ∧
    mdToHtml ("## " ++ "Title") = "<h2>" ++ "Title" ++ "</h2>" ∧
    mdToHtml ("### " ++ "Title") = "<h3>" ++ "Title" ++ "</h3>" ∧
    strContains (renderHtml (some "S") (some "# H\n\nP")) "<h1>H</h1>" = true := by
  have h := markdown_renderer_subset "Title" (by decide) (by decide) (by decide)
  exact ⟨h.1, h.2.1, h.2.2.1, h.2.2.2.2.2.2.1⟩
